import Mathlib

/-!
Verification of the structural diff renderer of the terraform-integrations
repository (file src/image/src/terraform_execution_summary/__main__.py).

The embedding models Python JSON values, the module-level constants
(SPECIAL_CHARACTERS_REGEX, SENSITIVE_KEYS, PARSING_LIBRARY), the value
renderers (render_string, render_bool, render_none, render_dict,
render_list), the recursive comparator compare_values, and the top-level
classifier parse_changes.

Conventions of the embedding:
- Python values decoded from JSON are the inductive PyVal. Floats are
  outside the modelled fragment (no claim involves them); numbers are Int.
- Attribute keys during comparison are either mapping keys (strings) or
  list indices (naturals): the inductive PKey.
- Python exceptions that escape a function (TypeError from sorted on a
  mixed key set, sys.exit) are modelled with Except String.
- Recursive Python functions are embedded with an explicit fuel argument
  so that every definition is structurally recursive and kernel-reducible;
  the fuel of each wrapper is large enough for the recursion depth of the
  source, which descends a strict subvalue at every nested call.
-/

inductive PyVal where
  | str : String → PyVal
  | bool : Bool → PyVal
  | int : Int → PyVal
  | null : PyVal
  | dict : List (String × PyVal) → PyVal
  | list : List PyVal → PyVal

inductive PKey where
  | str : String → PKey
  | idx : Nat → PKey
deriving BEq, DecidableEq

/-- Python truth test `value is None` and `value == None` (they agree on
JSON-decoded values). -/
def isNull : PyVal → Bool
  | .null => true
  | _ => false

/-- Guard `type(before_value) is dict and before_value` of the source:
a dict that is also truthy, i.e. non-empty. -/
def isNonEmptyDict : PyVal → Bool
  | .dict (_ :: _) => true
  | _ => false

/-- Guard `type(before_value) is list and before_value` of the source. -/
def isNonEmptyList : PyVal → Bool
  | .list (_ :: _) => true
  | _ => false

def isStrKey : PKey → Bool
  | .str _ => true
  | .idx _ => false

def isIdxKey : PKey → Bool
  | .str _ => false
  | .idx _ => true

/-- Python str(attribute): the key itself for strings, decimal digits for
list indices. -/
def pkeyStr : PKey → String
  | .str s => s
  | .idx n => toString n

/-- The Python value an attribute key denotes when compared with == against
members of a list (used by `attribute in replace_paths`). -/
def keyToVal : PKey → PyVal
  | .str s => PyVal.str s
  | .idx n => PyVal.int n

mutual
/-- A size measure on values: every node counts at least one, strings also
count their length (a parsed JSON document of a string s has fewer nodes
than s has characters). Used only to pick a sufficient fuel for the fueled
recursions below. -/
def pySize : PyVal → Nat
  | .str s => s.length + 2
  | .bool _ => 1
  | .int _ => 1
  | .null => 1
  | .dict kvs => 1 + pySizeEntries kvs
  | .list items => 1 + pySizeItems items
def pySizeEntries : List (String × PyVal) → Nat
  | [] => 0
  | (_, v) :: rest => 1 + pySize v + pySizeEntries rest
def pySizeItems : List PyVal → Nat
  | [] => 0
  | v :: rest => 1 + pySize v + pySizeItems rest
end

/-- Python deep equality == on JSON-decoded values, with fuel; includes the
Python cross-type rule True == 1 and False == 0, and order-insensitive
mapping equality (JSON objects have distinct keys, so mutual containment
with equal lengths is mapping equality). -/
def pyEqF : Nat → PyVal → PyVal → Bool
  | 0, _, _ => false
  | fuel + 1, v, w =>
    match v, w with
    | .str a, .str b => a == b
    | .bool a, .bool b => a == b
    | .int a, .int b => a == b
    | .bool a, .int b => (if a then (1 : Int) else 0) == b
    | .int a, .bool b => a == (if b then (1 : Int) else 0)
    | .null, .null => true
    | .dict a, .dict b =>
      a.length == b.length &&
        a.all (fun kv => b.any (fun kv2 => kv.1 == kv2.1 && pyEqF fuel kv.2 kv2.2))
    | .list a, .list b =>
      a.length == b.length && (a.zip b).all (fun vw => pyEqF fuel vw.1 vw.2)
    | _, _ => false

/-- Python ==. The recursion descends one constructor of the left value per
step, so pySize bounds its depth. -/
def pyEq (v w : PyVal) : Bool := pyEqF (pySize v + 1) v w

/-- Characters of the module constant SPECIAL_CHARACTERS_REGEX, the class
[@!#$%^&*()<>?/\|}{~:] (the backslash escapes the pipe). -/
def specialChars : List Char :=
  ['@', '!', '#', '$', '%', '^', '&', '*', '(', ')', '<', '>', '?', '/',
   '|', '\x7d', '\x7b', '~', ':']

def hasSpecialChar (s : String) : Bool :=
  s.toList.any (fun c => specialChars.contains c)

/-- Module constant SENSITIVE_KEYS. -/
def sensitiveKeysList : List String := ["auth", "pass", "token", "jwt", "secret"]

def startsWithCh : List Char → List Char → Bool
  | [], _ => true
  | _ :: _, [] => false
  | n :: ns, h :: hs => n == h && startsWithCh ns hs

/-- Python substring containment `needle in hay`. -/
def containsSubCh (needle : List Char) : List Char → Bool
  | [] => startsWithCh needle []
  | h :: t => startsWithCh needle (h :: t) || containsSubCh needle t

/-- Python str.lower on the ASCII fragment (all keys in the source data are
ASCII). -/
def lowerStr (s : String) : String := String.mk (s.toList.map Char.toLower)

/-- Indentation string "   " * level of the source. -/
def tabsOf : Nat → String
  | 0 => ""
  | n + 1 => "   " ++ tabsOf n

/-- Source function render_string: values longer than 1000 characters are
hidden, the rest are double-quoted. -/
def render_string (data : String) : String :=
  if 1000 < data.length then "(Hidden Large Value)" else "\"" ++ data ++ "\""

/-- Source function render_bool: str(data).lower(). -/
def render_bool (data : Bool) : String := if data then "true" else "false"

/-- Source function render_none. -/
def render_none : String := "null"

/-- Key rendering inside render_dict and for attribute names: quoted when
SPECIAL_CHARACTERS_REGEX matches str(key). -/
def attrQuote (s : String) : String :=
  if hasSpecialChar s then "\"" ++ s ++ "\"" else s

/-- Fueled body shared by the source functions render_dict and render_list
(they are mutually recursive through their container branches). Scalars are
rendered by the scalar renderers, containers recurse with
start_with_indention = false and indention_level + 1. A non-container
argument never occurs in the source; it renders as the empty string. -/
def renderContainerF : Nat → PyVal → Bool → Nat → String
  | 0, _, _, _ => ""
  | fuel + 1, v, swi, lvl =>
    match v with
    | .dict data =>
      let tabs := tabsOf lvl
      if data.isEmpty then (if swi then tabs else "") ++ "\x7b\x7d"
      else
        (if swi then tabs else "") ++ "\x7b\n" ++
          data.foldl
            (fun acc kv =>
              let vt := tabsOf (lvl + 1)
              let kr := attrQuote kv.1
              let entry :=
                match kv.2 with
                | .dict d2 => renderContainerF fuel (.dict d2) false (lvl + 1)
                | .list l2 => renderContainerF fuel (.list l2) false (lvl + 1)
                | .str s => render_string s
                | .bool b => render_bool b
                | .null => render_none
                | .int i => toString i
              acc ++ vt ++ kr ++ " = " ++ entry ++ "\n")
            "" ++
          tabs ++ "\x7d"
    | .list items =>
      let tabs := tabsOf lvl
      if items.isEmpty then (if swi then tabs else "") ++ "[]"
      else
        (if swi then tabs else "") ++ "[\n" ++
          items.foldl
            (fun acc w =>
              let vt := tabsOf (lvl + 1)
              let entry :=
                match w with
                | .dict d2 => renderContainerF fuel (.dict d2) false (lvl + 1)
                | .list l2 => renderContainerF fuel (.list l2) false (lvl + 1)
                | .str s => render_string s
                | .bool b => render_bool b
                | .null => render_none
                | .int i => toString i
              acc ++ vt ++ entry ++ "\n")
            "" ++
          tabs ++ "]"
    | _ => ""

/-- Source function render_dict. -/
def render_dict (data : List (String × PyVal)) (swi : Bool) (lvl : Nat) : String :=
  renderContainerF (pySizeEntries data + 1) (.dict data) swi lvl

/-- Source function render_list. -/
def render_list (data : List PyVal) (swi : Bool) (lvl : Nat) : String :=
  renderContainerF (pySizeItems data + 1) (.list data) swi lvl

/-- The type-dispatch chain used by compare_values on a value that is not
redacted: str, bool, None, dict, list, and the f-string fallback for
numbers. lvl is the indention_level of the comparison; containers receive
indention_level + 1 as in the source. -/
def renderPlain (v : PyVal) (lvl : Nat) : String :=
  match v with
  | .str s => render_string s
  | .bool b => render_bool b
  | .null => render_none
  | .dict d => render_dict d false (lvl + 1)
  | .list l => render_list l false (lvl + 1)
  | .int i => toString i

/-- JSON whitespace as accepted by json.loads: space, tab, line feed,
carriage return. -/
def jsonWs (c : Char) : Bool := c == ' ' || c == '\t' || c == '\n' || c == '\r'

def skipWs (cs : List Char) : List Char := cs.dropWhile jsonWs

/-- JSON string escapes handled by the model. Unicode \u escapes are
outside the modelled fragment (no input of this development contains
them); on them the model fails like on malformed input. -/
def jsonEscapePairs : List (Char × Char) :=
  [('"', '"'), ('\\', '\\'), ('/', '/'), ('n', '\n'), ('t', '\t'),
   ('r', '\r'), ('b', Char.ofNat 8), ('f', Char.ofNat 12)]

def jsonEscape (c : Char) : Option Char :=
  match jsonEscapePairs.find? (fun pc => pc.1 == c) with
  | some pc => some pc.2
  | Option.none => Option.none

/-- Body of a JSON string after the opening quote; strict mode rejects
unescaped control characters, as json.loads does. -/
def jsonStr : Nat → List Char → List Char → Option (String × List Char)
  | 0, _, _ => Option.none
  | fuel + 1, acc, cs =>
    match cs with
    | [] => Option.none
    | c :: rest =>
      if c == '"' then some (String.mk acc.reverse, rest)
      else if c == '\\' then
        match rest with
        | [] => Option.none
        | e :: rest2 =>
          match jsonEscape e with
          | some ch => jsonStr fuel (ch :: acc) rest2
          | Option.none => Option.none
      else if c.toNat < 32 then Option.none
      else jsonStr fuel (c :: acc) rest

def digitsToNat (ds : List Char) : Nat :=
  ds.foldl (fun acc c => acc * 10 + (c.toNat - 48)) 0

/-- The integer part of a JSON number: 0, or a nonzero digit followed by
digits (json.loads rejects leading zeros by reading just the 0 and failing
on the extra data). -/
def jsonIntPart (cs : List Char) : Option (Nat × List Char) :=
  match cs with
  | [] => Option.none
  | c :: rest =>
    if c == '0' then some (0, rest)
    else if c.isDigit then
      some (digitsToNat (c :: rest.takeWhile Char.isDigit), rest.dropWhile Char.isDigit)
    else Option.none

/-- Numbers with a fraction or exponent are floats in Python; floats are
outside the modelled fragment, so the model fails on them. -/
def checkNoFrac (v : PyVal) (r : List Char) : Option (PyVal × List Char) :=
  match r with
  | [] => some (v, r)
  | c :: _ => if c == '.' || c == 'e' || c == 'E' then Option.none else some (v, r)

/-- Comma-separated array items after the first item position; pv parses
one value and returns the unconsumed suffix. -/
def jsonArrItems (pv : List Char → Option (PyVal × List Char)) :
    Nat → List PyVal → List Char → Option (List PyVal × List Char)
  | 0, _, _ => Option.none
  | fuel + 1, acc, cs =>
    match pv cs with
    | Option.none => Option.none
    | some (v, rest) =>
      match skipWs rest with
      | ',' :: rest2 => jsonArrItems pv fuel (v :: acc) rest2
      | ']' :: rest2 => some ((v :: acc).reverse, rest2)
      | _ => Option.none

/-- Comma-separated object members. Objects with duplicate keys are outside
the modelled fragment (Python would keep the last occurrence); the model
fails on them. -/
def jsonObjItems (pv : List Char → Option (PyVal × List Char)) :
    Nat → List (String × PyVal) → List Char → Option (List (String × PyVal) × List Char)
  | 0, _, _ => Option.none
  | fuel + 1, acc, cs =>
    match skipWs cs with
    | '"' :: rest =>
      match jsonStr (rest.length + 1) [] rest with
      | Option.none => Option.none
      | some (k, rest2) =>
        if acc.any (fun kv => kv.1 == k) then Option.none
        else
          match skipWs rest2 with
          | ':' :: rest3 =>
            match pv rest3 with
            | Option.none => Option.none
            | some (v, rest4) =>
              match skipWs rest4 with
              | ',' :: rest5 => jsonObjItems pv fuel ((k, v) :: acc) rest5
              | '\x7d' :: rest5 => some (((k, v) :: acc).reverse, rest5)
              | _ => Option.none
          | _ => Option.none
    | _ => Option.none

/-- One JSON value, by recursive descent with fuel. -/
def jsonVal : Nat → List Char → Option (PyVal × List Char)
  | 0, _ => Option.none
  | fuel + 1, cs =>
    match skipWs cs with
    | [] => Option.none
    | c :: rest =>
      if c == '\x7b' then
        match skipWs rest with
        | '\x7d' :: r2 => some (.dict [], r2)
        | _ =>
          match jsonObjItems (fun cs2 => jsonVal fuel cs2) fuel [] rest with
          | some (kvs, r2) => some (.dict kvs, r2)
          | Option.none => Option.none
      else if c == '[' then
        match skipWs rest with
        | ']' :: r2 => some (.list [], r2)
        | _ =>
          match jsonArrItems (fun cs2 => jsonVal fuel cs2) fuel [] rest with
          | some (items, r2) => some (.list items, r2)
          | Option.none => Option.none
      else if c == '"' then
        match jsonStr (rest.length + 1) [] rest with
        | some (s, r2) => some (.str s, r2)
        | Option.none => Option.none
      else if c == 't' then
        match rest with
        | 'r' :: 'u' :: 'e' :: r2 => some (.bool true, r2)
        | _ => Option.none
      else if c == 'f' then
        match rest with
        | 'a' :: 'l' :: 's' :: 'e' :: r2 => some (.bool false, r2)
        | _ => Option.none
      else if c == 'n' then
        match rest with
        | 'u' :: 'l' :: 'l' :: r2 => some (.null, r2)
        | _ => Option.none
      else if c == '-' then
        match jsonIntPart rest with
        | some (n, r2) => checkNoFrac (.int (-(n : Int))) r2
        | Option.none => Option.none
      else
        match jsonIntPart (c :: rest) with
        | some (n, r2) => checkNoFrac (.int (n : Int)) r2
        | Option.none => Option.none

/-- Model of json.loads on a string argument: parse one value, then require
only whitespace to remain (otherwise json.loads raises Extra data). A
None result models a raised JSONDecodeError. -/
def json_loads (s : String) : Option PyVal :=
  match jsonVal (2 * s.length + 8) s.toList with
  | some (v, rest) => if (skipWs rest).isEmpty then some v else Option.none
  | Option.none => Option.none

/-- The try json.loads blocks of compare_values: a successful parse of a
string replaces the value, TypeError (non-string argument) and
JSONDecodeError leave it unchanged. -/
def tryLoads (v : PyVal) : PyVal :=
  match v with
  | .str s =>
    match json_loads s with
    | some w => w
    | Option.none => v
  | _ => v

/-- Lookup of a string key in a Python dict with string keys (the shape of
all metadata maps and JSON objects here). -/
def assocLookup (k : String) : List (String × PyVal) → Option PyVal
  | [] => Option.none
  | (k2, v) :: rest => if k == k2 then some v else assocLookup k rest

/-- Python subscription container[attribute] as used by compare_values,
with TypeError, KeyError and IndexError all mapped to Option.none (the
source catches exactly these three). Indexing a string with an integer
succeeds in Python and yields a one-character string. -/
def pyIndex (container : PyVal) (k : PKey) : Option PyVal :=
  match container, k with
  | .dict kvs, .str s => assocLookup s kvs
  | .dict _, .idx _ => Option.none
  | .list items, .idx n => items.get? n
  | .list _, .str _ => Option.none
  | .str s, .idx n =>
    match s.toList.get? n with
    | some c => some (.str (String.mk [c]))
    | Option.none => Option.none
  | _, _ => Option.none

/-- Resolution of before_value: before[attribute], missing means None. -/
def lookupBefore (before : PyVal) (k : PKey) : PyVal :=
  match pyIndex before k with
  | some v => v
  | Option.none => PyVal.null

/-- Resolution of after_value: after[attribute], on failure
after_unknown[attribute], on failure None. -/
def lookupAfter (after : PyVal) (aUnk : List (String × PyVal)) (k : PKey) : PyVal :=
  match pyIndex after k with
  | some v => v
  | Option.none =>
    match k with
    | .str s =>
      match assocLookup s aUnk with
      | some v => v
      | Option.none => PyVal.null
    | .idx _ => PyVal.null

/-- The keys a tree contributes to the attribute union: dict keys, list
indices 0..len-1, nothing for scalars. -/
def keysOf (v : PyVal) : List PKey :=
  match v with
  | .dict kvs => kvs.map (fun kv => PKey.str kv.1)
  | .list items => (List.range items.length).map PKey.idx
  | _ => []

/-- The deduplication performed by set(), keeping first occurrences (the
final sorted order does not depend on this order). -/
def dedupGo (seen : List PKey) : List PKey → List PKey
  | [] => []
  | k :: ks => if seen.contains k then dedupGo seen ks else k :: dedupGo (k :: seen) ks

def dedupKeys (ks : List PKey) : List PKey := dedupGo [] ks

/-- Comparison used by sorted(): strings lexicographically by code point,
integers numerically. A cross-type comparison raises TypeError in Python;
sortedAttrs errors out before this function can see one. -/
def keyLe (a b : PKey) : Bool :=
  match a, b with
  | .str x, .str y => decide (x ≤ y)
  | .idx x, .idx y => decide (x ≤ y)
  | _, _ => true

def insertKey (k : PKey) : List PKey → List PKey
  | [] => [k]
  | x :: xs => if keyLe k x then k :: x :: xs else x :: insertKey k xs

def sortKeys : List PKey → List PKey
  | [] => []
  | k :: ks => insertKey k (sortKeys ks)

/-- sorted(list(set([*before_keys, *after_keys]))) of the source. When the
union holds both a list index and a string key, Python sorted raises
TypeError (ordering two elements of different types is required to sort
and is unsupported); that exception is the error case here. -/
def sortedAttrs (before after : PyVal) : Except String (List PKey) :=
  let ks := dedupKeys (keysOf before ++ keysOf after)
  if ks.any isStrKey && ks.any isIdxKey then
    Except.error "TypeError: unorderable attribute key types"
  else Except.ok (sortKeys ks)

/-- True or [True] test applied to the three metadata maps: the key must be
present and its value must be the literal True or a list equal to [True]
under Python ==. An integer key is never present in a string-keyed map. -/
def markedTrue (m : List (String × PyVal)) (k : PKey) : Bool :=
  match k with
  | .idx _ => false
  | .str s =>
    match assocLookup s m with
    | some v =>
      (match v with
       | .bool true => true
       | _ => false) || pyEq v (.list [.bool true])
    | Option.none => false

/-- The SENSITIVE_KEYS substring rule: any of the five substrings occurs in
str(attribute).lower(). -/
def sensitiveSubKey (k : PKey) : Bool :=
  sensitiveKeysList.any
    (fun w => containsSubCh w.toList (lowerStr (pkeyStr k)).toList)

/-- before_sensitive_bool of the source: map mark or substring rule. -/
def sensFlagBefore (bSens : List (String × PyVal)) (k : PKey) : Bool :=
  markedTrue bSens k || sensitiveSubKey k

/-- after_sensitive_bool of the source: map mark or substring rule. -/
def sensFlagAfter (aSens : List (String × PyVal)) (k : PKey) : Bool :=
  markedTrue aSens k || sensitiveSubKey k

/-- forces_replacement of the source: replace_paths truthy, outermost
recursion level, and the attribute a member of replace_paths under
Python ==. -/
def forcesReplacement (rp : List PyVal) (level : Nat) (k : PKey) : Bool :=
  !rp.isEmpty && level == 1 && rp.any (fun p => pyEq (keyToVal k) p)

/-- The suffix every emitted line receives: the annotation when
forces_replacement holds, a bare newline otherwise. -/
def annSuffix (fr : Bool) : String :=
  if fr then " -> (Forces Replacement)\n" else "\n"

/-- Change symbol from PARSING_LIBRARY: add when before is None and after
is not, delete in the opposite case, update otherwise. -/
def symbolFor (bv av : PyVal) : String :=
  if isNull bv && !isNull av then "+"
  else if !isNull bv && isNull av then "-"
  else "~"

/-- before_value_rendered of the leaf case: the sensitive placeholder wins,
otherwise the type-dispatch chain. -/
def renderLeafBefore (sb : Bool) (bv : PyVal) (lvl : Nat) : String :=
  if sb then "(Sensitive Data)" else renderPlain bv lvl

/-- after_value_rendered of the leaf case: sensitive placeholder first,
then the known-after-apply placeholder, then the type-dispatch chain. -/
def renderLeafAfter (sa ub : Bool) (av : PyVal) (lvl : Nat) : String :=
  if sa then "(Sensitive Data)"
  else if ub then "(Known After Apply)"
  else renderPlain av lvl

/-- Attribute rendering for emitted lines: quoted when
SPECIAL_CHARACTERS_REGEX matches str(attribute). -/
def attrRender (k : PKey) : String := attrQuote (pkeyStr k)

/-- The three emitted line shapes of the leaf case: a fresh list element
omits the key, a fresh mapping entry omits the old value, and every other
leaf shows old -> new. -/
def leafOut (tabs sym attrR : String) (ai : Bool) (bR aR : String)
    (bn an : Bool) (ann : String) : String :=
  if bn && !an && ai then tabs ++ sym ++ " " ++ aR ++ ann
  else if bn && !an then tabs ++ sym ++ " " ++ attrR ++ " = " ++ aR ++ ann
  else tabs ++ sym ++ " " ++ attrR ++ " = " ++ bR ++ " -> " ++ aR ++ ann

/-- Header of the nested mapping block: a string attribute is printed raw
(no special-character quoting here), an integer index prints no name. -/
def dictHeader (k : PKey) (tabs : String) (fr : Bool) : String :=
  match k with
  | .str s => tabs ++ s ++ " = \x7b" ++ annSuffix fr
  | .idx _ => tabs ++ "\x7b" ++ annSuffix fr

/-- The type of the recursive continuation of the comparator. -/
def CmpFun :=
  PyVal → PyVal → List (String × PyVal) → List (String × PyVal) →
    List (String × PyVal) → List PyVal → Nat → Except String String

/-- The loop body of compare_values for one attribute of the sorted union.
Python control flow: resolve the two values; if they are == the attribute
is suppressed (the only print there is commented out in the source);
otherwise attempt json.loads on both, compute the sensitivity, unknown and
forces-replacement flags, then either recurse into a non-empty unredacted
mapping or list (the recursive call passes the three metadata maps
unchanged and no replace_paths, shown here as []), or emit one leaf line. -/
def processAttr (recur : CmpFun) (before after : PyVal)
    (bSens aSens aUnk : List (String × PyVal)) (rp : List PyVal)
    (level : Nat) (attr : PKey) : Except String String :=
  let bv0 := lookupBefore before attr
  let av0 := lookupAfter after aUnk attr
  if pyEq bv0 av0 then Except.ok ""
  else
    let bv := tryLoads bv0
    let av := tryLoads av0
    let sb := sensFlagBefore bSens attr
    let sa := sensFlagAfter aSens attr
    let ub := markedTrue aUnk attr
    let fr := forcesReplacement rp level attr
    if isNonEmptyDict bv && !isNull av && !sb && !sa && !ub then
      match recur bv av bSens aSens aUnk [] (level + 1) with
      | Except.error e => Except.error e
      | Except.ok inner =>
        Except.ok (dictHeader attr (tabsOf level) fr ++ inner ++ tabsOf level ++ "\x7d\n")
    else if isNonEmptyList bv && !isNull av && !sb && !sa && !ub then
      match recur bv av bSens aSens aUnk [] (level + 1) with
      | Except.error e => Except.error e
      | Except.ok inner =>
        Except.ok (tabsOf level ++ pkeyStr attr ++ " = [" ++ annSuffix fr ++
          inner ++ tabsOf level ++ "]\n")
    else
      Except.ok (leafOut (tabsOf level) (symbolFor bv av) (attrRender attr)
        (isIdxKey attr) (renderLeafBefore sb bv level) (renderLeafAfter sa ub av level)
        (isNull bv) (isNull av) (annSuffix fr))

/-- Left-to-right concatenation of the per-attribute results, stopping at
the first raised exception, like the Python for loop accumulating into
result. -/
def concatAttrs (step : PKey → Except String String) : List PKey → Except String String
  | [] => Except.ok ""
  | a :: rest =>
    match step a with
    | Except.error e => Except.error e
    | Except.ok s =>
      match concatAttrs step rest with
      | Except.error e => Except.error e
      | Except.ok r => Except.ok (s ++ r)

/-- Fueled compare_values: compute the sorted attribute union (or raise),
then process each attribute in order. -/
def compareValuesF : Nat → CmpFun
  | 0, _, _, _, _, _, _, _ => Except.error "RecursionError"
  | fuel + 1, before, after, bSens, aSens, aUnk, rp, level =>
    match sortedAttrs before after with
    | Except.error e => Except.error e
    | Except.ok attrs =>
      concatAttrs
        (fun attr => processAttr
          (fun b2 a2 bs2 as2 au2 rp2 lvl2 => compareValuesF fuel b2 a2 bs2 as2 au2 rp2 lvl2)
          before after bSens aSens aUnk rp level attr)
        attrs

/-- Source function compare_values at its default indention_level 1; a
replace_paths of None is the empty list. Nested recursion always descends
one level of the before tree or of a JSON document parsed out of one of
its strings, so pySize before bounds the depth. -/
def compare_values (before after : PyVal)
    (before_sensitive after_sensitive after_unknown : List (String × PyVal))
    (replace_paths : List PyVal) : Except String String :=
  compareValuesF (pySize before + pySize after + 2) before after
    before_sensitive after_sensitive after_unknown replace_paths 1

/-- One record of resources["resource_changes"]: the fields parse_changes
reads. The four metadata fields are absent or arbitrary JSON. -/
structure ResourceChange where
  provider_name : String
  rtype : String
  address : String
  rname : String
  actions : List String
  before : PyVal
  after : PyVal
  before_sensitive : Option PyVal
  after_sensitive : Option PyVal
  after_unknown : Option PyVal
  replace_paths : Option PyVal

/-- The defensive coercion parse_changes applies to the sensitivity and
unknown maps: present and a dict, otherwise empty. -/
def coerceMap : Option PyVal → List (String × PyVal)
  | some (.dict kvs) => kvs
  | _ => []

/-- The replace_paths extraction: present, a list, and truthy, then its
first element is the depth-1 path. Terraform emits a list of lists of path
segments; a first element that is not a list is outside the modelled
fragment (Python would pass the scalar on and fail later at the membership
test). -/
def coercePaths : Option PyVal → List PyVal
  | some (.list (PyVal.list segs :: _)) => segs
  | _ => []

/-- RESOURCE_MESSAGE filled in, followed by the opening brace line appended
by every emitting branch. -/
def resourceHeader (rc : ResourceChange) (message symbol : String) : String :=
  "\n# Provider: [" ++ rc.provider_name ++ "]\n# Resource Type: [" ++ rc.rtype ++
    "]\n# Resource Identifier: [" ++ rc.address ++ "]\n# Message: " ++ message ++
    "\n" ++ symbol ++ " " ++ "resource \"" ++ rc.rtype ++ "\" \"" ++ rc.rname ++
    "\"" ++ " " ++ "\x7b\n"

/-- Classification of one resource change: no-op entries are skipped; the
create+delete branch is the only one handed replace_paths; read logs only;
an unmatched action set is sys.exit(1), modelled as an error. -/
def processResource (rc : ResourceChange) : Except String String :=
  if rc.actions.contains "no-op" then Except.ok ""
  else
    let bSens := coerceMap rc.before_sensitive
    let aSens := coerceMap rc.after_sensitive
    let aUnk := coerceMap rc.after_unknown
    let rp := coercePaths rc.replace_paths
    if rc.actions.contains "create" && rc.actions.contains "delete" then
      match compare_values rc.before rc.after bSens aSens aUnk rp with
      | Except.error e => Except.error e
      | Except.ok body =>
        Except.ok (resourceHeader rc "This resource must be replaced." "+/-" ++
          body ++ "\x7d\n")
    else if rc.actions.contains "create" && !rc.actions.contains "delete" then
      match compare_values rc.before rc.after bSens aSens aUnk [] with
      | Except.error e => Except.error e
      | Except.ok body =>
        Except.ok (resourceHeader rc "This resource will be created as defined." "+" ++
          body ++ "\x7d\n")
    else if rc.actions.contains "delete" && !rc.actions.contains "create" then
      match compare_values rc.before rc.after bSens aSens aUnk [] with
      | Except.error e => Except.error e
      | Except.ok body =>
        Except.ok (resourceHeader rc "This resource will be destroyed." "-" ++
          body ++ "\x7d\n")
    else if rc.actions.contains "update" then
      match compare_values rc.before rc.after bSens aSens aUnk [] with
      | Except.error e => Except.error e
      | Except.ok body =>
        Except.ok (resourceHeader rc "This resource will be updated in-place." "~" ++
          body ++ "\x7d\n")
    else if rc.actions.contains "read" then Except.ok ""
    else Except.error ("Failed to parse plan action on resource [" ++ rc.address ++ "]")

/-- The resource loop: blocks concatenate in payload order; the first
sys.exit aborts the whole invocation. -/
def concatResources : List ResourceChange → Except String String
  | [] => Except.ok ""
  | rc :: rest =>
    match processResource rc with
    | Except.error e => Except.error e
    | Except.ok s =>
      match concatResources rest with
      | Except.error e => Except.error e
      | Except.ok r => Except.ok (s ++ r)

/-- The fixed preamble of parse_changes (the triple-quoted literal). -/
def preambleStr : String :=
  "\nResource actions are indicated with the following symbols:\n    + create resource\n    - destroy resource\n    ~ update in-place\n    +/- create replacement and then destroy\n\nTerraform will perform the following actions:\n"

/-- Python str.lstrip on the ASCII whitespace fragment. -/
def lstripStr (s : String) : String :=
  String.mk (s.toList.dropWhile Char.isWhitespace)

/-- Source function parse_changes: preamble, one block per acted-on
resource change, a closing newline, left-stripped. -/
def parse_changes (resources : List ResourceChange) : Except String String :=
  match concatResources resources with
  | Except.error e => Except.error e
  | Except.ok body => Except.ok (lstripStr (preambleStr ++ body ++ "\n"))

/-- C8: every string value longer than 1000 characters renders as the
fixed placeholder (Hidden Large Value) instead of its literal content;
render_string takes no sensitivity input, so the rule is independent of
sensitivity and of whether before and after differ. -/
theorem c8_hidden_large_value (s : String) (h : 1000 < s.length) :
    render_string s = "(Hidden Large Value)" := by
  unfold render_string
  simp [h]

theorem c8_witness :
    1000 < (String.mk (List.replicate 1001 'a')).length ∧
      render_string (String.mk (List.replicate 1001 'a')) = "(Hidden Large Value)" :=
  ⟨by set_option maxRecDepth 8000 in decide,
   c8_hidden_large_value (String.mk (List.replicate 1001 'a'))
     (by set_option maxRecDepth 8000 in decide)⟩

/-- C3 (code_bug evidence): when a list is compared against a mapping, the
attribute union mixes integer indices with string keys and the sorted call
of compare_values raises TypeError; the comparator does not return a
string. The spec requires that this must not raise. -/
theorem c3_mixed_union_raises :
    compare_values (PyVal.list [PyVal.int 1]) (PyVal.dict [("a", PyVal.int 2)])
        [] [] [] []
      = Except.error "TypeError: unorderable attribute key types" := by rfl

/-- C7 (counterexample): on before list [1, 2] and after list [1, 3] the
emitted block is not the one the claim states: the changed index emits
"~ 1 = 2 -> 3", keeping the index key and the old value, not "~ 1 -> 3". -/
theorem c7_counterexample :
    compare_values (PyVal.dict [("list", PyVal.list [PyVal.int 1, PyVal.int 2])])
        (PyVal.dict [("list", PyVal.list [PyVal.int 1, PyVal.int 3])]) [] [] [] []
      ≠ Except.ok "   list = [\n      ~ 1 -> 3\n   ]\n" := by
  intro h
  exact absurd (Except.ok.inj h) (by decide)

/-- C7 (amended): the scenario produces the nested block whose only body
line is "      ~ 1 = 2 -> 3": index 0 is suppressed as unchanged, and the
changed index 1 emits the full update shape with the index as key and both
the old and the new value. -/
theorem c7_amended_list_block :
    compare_values (PyVal.dict [("list", PyVal.list [PyVal.int 1, PyVal.int 2])])
        (PyVal.dict [("list", PyVal.list [PyVal.int 1, PyVal.int 3])]) [] [] [] []
      = Except.ok "   list = [\n      ~ 1 = 2 -> 3\n   ]\n" := by rfl

/-- C1 (counterexample): two distinct strings that parse to the same
embedded JSON document are not suppressed: with before "true" and after
" true" (equal parses, unequal raw strings) the comparator emits an update
line for the key, contradicting the claim that such attributes produce no
output. -/
theorem c1_counterexample :
    json_loads "true" = some (PyVal.bool true) ∧
      json_loads " true" = some (PyVal.bool true) ∧
      compare_values (PyVal.dict [("k", PyVal.str "true")])
          (PyVal.dict [("k", PyVal.str " true")]) [] [] [] []
        = Except.ok "   ~ k = true -> true\n" ∧
      ("   ~ k = true -> true\n" : String) ≠ "" :=
  ⟨by rfl, by rfl, by rfl, by decide⟩

/-- C1 (amended): the suppression test of compare_values is Python ==
equality of the raw resolved values, applied before any json.loads
attempt; whenever the raw before and after values of an attribute are
equal the attribute contributes nothing to the diff body. Strings that are
unequal raw but have equal embedded-JSON parses fall through to the
changed path instead. -/
theorem c1_raw_equality_suppressed (recur : CmpFun) (before after : PyVal)
    (bSens aSens aUnk : List (String × PyVal)) (rp : List PyVal)
    (level : Nat) (attr : PKey)
    (h : pyEq (lookupBefore before attr) (lookupAfter after aUnk attr) = true) :
    processAttr recur before after bSens aSens aUnk rp level attr = Except.ok "" := by
  unfold processAttr
  simp [h]

theorem c1_witness :
    processAttr (fun _ _ _ _ _ _ _ => Except.ok "") (PyVal.dict [("k", PyVal.int 1)])
        (PyVal.dict [("k", PyVal.int 1)]) [] [] [] [] 1 (PKey.str "k") = Except.ok "" :=
  c1_raw_equality_suppressed _ _ _ _ _ _ _ _ _ (by decide)

/-- String append with an empty left operand. -/
theorem strNilAppend (r : String) : "" ++ r = r := by
  cases r
  rfl

/-- C2: a key that is sensitive on a side renders on that side exactly as
(Sensitive Data). The db_password scenario holds with empty sensitivity
maps; the substring rule makes both flags true for any key containing a
SENSITIVE_KEYS word; and whenever a side flag is true the attribute either
produces no output (values equal) or a leaf line whose slot for that side
is the literal placeholder, never a rendering of the underlying value (the
nested branches that would recurse into the value are disabled by the
flag). -/
theorem c2_sensitive_redaction :
    (compare_values (PyVal.dict [("db_password", PyVal.str "a")])
        (PyVal.dict [("db_password", PyVal.str "b")]) [] [] [] []
      = Except.ok "   ~ db_password = (Sensitive Data) -> (Sensitive Data)\n") ∧
    (∀ (bSens aSens : List (String × PyVal)) (attr : PKey),
      sensitiveSubKey attr = true →
      sensFlagBefore bSens attr = true ∧ sensFlagAfter aSens attr = true) ∧
    (∀ (recur : CmpFun) (before after : PyVal)
        (bSens aSens aUnk : List (String × PyVal)) (rp : List PyVal)
        (level : Nat) (attr : PKey),
      sensFlagBefore bSens attr = true →
      processAttr recur before after bSens aSens aUnk rp level attr = Except.ok "" ∨
      ∃ sym attrR ai aR bn an ann2,
        processAttr recur before after bSens aSens aUnk rp level attr
          = Except.ok (leafOut (tabsOf level) sym attrR ai "(Sensitive Data)" aR bn an ann2)) ∧
    (∀ (recur : CmpFun) (before after : PyVal)
        (bSens aSens aUnk : List (String × PyVal)) (rp : List PyVal)
        (level : Nat) (attr : PKey),
      sensFlagAfter aSens attr = true →
      processAttr recur before after bSens aSens aUnk rp level attr = Except.ok "" ∨
      ∃ sym attrR ai bR bn an ann2,
        processAttr recur before after bSens aSens aUnk rp level attr
          = Except.ok (leafOut (tabsOf level) sym attrR ai bR "(Sensitive Data)" bn an ann2)) := by
  refine ⟨by rfl, ?_, ?_, ?_⟩
  · intro bSens aSens attr h
    constructor
    · simp [sensFlagBefore, h]
    · simp [sensFlagAfter, h]
  · intro recur before after bSens aSens aUnk rp level attr h
    by_cases hpe : pyEq (lookupBefore before attr) (lookupAfter after aUnk attr) = true
    · left
      unfold processAttr
      simp [hpe]
    · rw [Bool.not_eq_true] at hpe
      right
      refine ⟨symbolFor (tryLoads (lookupBefore before attr))
          (tryLoads (lookupAfter after aUnk attr)),
        attrRender attr, isIdxKey attr,
        renderLeafAfter (sensFlagAfter aSens attr) (markedTrue aUnk attr)
          (tryLoads (lookupAfter after aUnk attr)) level,
        isNull (tryLoads (lookupBefore before attr)),
        isNull (tryLoads (lookupAfter after aUnk attr)),
        annSuffix (forcesReplacement rp level attr), ?_⟩
      unfold processAttr
      simp [hpe, h, renderLeafBefore]
  · intro recur before after bSens aSens aUnk rp level attr h
    by_cases hpe : pyEq (lookupBefore before attr) (lookupAfter after aUnk attr) = true
    · left
      unfold processAttr
      simp [hpe]
    · rw [Bool.not_eq_true] at hpe
      right
      refine ⟨symbolFor (tryLoads (lookupBefore before attr))
          (tryLoads (lookupAfter after aUnk attr)),
        attrRender attr, isIdxKey attr,
        renderLeafBefore (sensFlagBefore bSens attr)
          (tryLoads (lookupBefore before attr)) level,
        isNull (tryLoads (lookupBefore before attr)),
        isNull (tryLoads (lookupAfter after aUnk attr)),
        annSuffix (forcesReplacement rp level attr), ?_⟩
      unfold processAttr
      simp [hpe, h, renderLeafAfter]

theorem c2_witness :
    (sensFlagBefore [] (PKey.str "db_password") = true ∧
      sensFlagAfter [] (PKey.str "db_password") = true) ∧
    (processAttr (fun _ _ _ _ _ _ _ => Except.ok "")
        (PyVal.dict [("db_password", PyVal.str "a")])
        (PyVal.dict [("db_password", PyVal.str "b")]) [] [] [] [] 1
        (PKey.str "db_password") = Except.ok "" ∨
      ∃ sym attrR ai aR bn an ann2,
        processAttr (fun _ _ _ _ _ _ _ => Except.ok "")
            (PyVal.dict [("db_password", PyVal.str "a")])
            (PyVal.dict [("db_password", PyVal.str "b")]) [] [] [] [] 1
            (PKey.str "db_password")
          = Except.ok (leafOut (tabsOf 1) sym attrR ai "(Sensitive Data)" aR bn an ann2)) :=
  ⟨c2_sensitive_redaction.2.1 [] [] (PKey.str "db_password") (by decide),
   c2_sensitive_redaction.2.2.1 (fun _ _ _ _ _ _ _ => Except.ok "") _ _ [] [] [] [] 1
     (PKey.str "db_password") (by decide)⟩

/-- C6: an attribute marked unknown-after-apply (True or [True] in the
unknown map) and not sensitive on the after side either produces no output
(values equal) or a leaf line whose after slot is the literal
(Known After Apply); the value-derived rendering of the after tree never
appears in that slot, and the nested branches that would recurse into the
after value are disabled by the unknown flag. -/
theorem c6_known_after_apply (recur : CmpFun) (before after : PyVal)
    (bSens aSens aUnk : List (String × PyVal)) (rp : List PyVal)
    (level : Nat) (attr : PKey)
    (hu : markedTrue aUnk attr = true) (hs : sensFlagAfter aSens attr = false) :
    processAttr recur before after bSens aSens aUnk rp level attr = Except.ok "" ∨
      ∃ sym attrR ai bR bn an ann2,
        processAttr recur before after bSens aSens aUnk rp level attr
          = Except.ok (leafOut (tabsOf level) sym attrR ai bR "(Known After Apply)" bn an ann2) := by
  by_cases hpe : pyEq (lookupBefore before attr) (lookupAfter after aUnk attr) = true
  · left
    unfold processAttr
    simp [hpe]
  · rw [Bool.not_eq_true] at hpe
    right
    refine ⟨symbolFor (tryLoads (lookupBefore before attr))
        (tryLoads (lookupAfter after aUnk attr)),
      attrRender attr, isIdxKey attr,
      renderLeafBefore (sensFlagBefore bSens attr)
        (tryLoads (lookupBefore before attr)) level,
      isNull (tryLoads (lookupBefore before attr)),
      isNull (tryLoads (lookupAfter after aUnk attr)),
      annSuffix (forcesReplacement rp level attr), ?_⟩
    unfold processAttr
    simp [hpe, hu, hs, renderLeafAfter]

theorem c6_witness :
    processAttr (fun _ _ _ _ _ _ _ => Except.ok "")
        (PyVal.dict [("id", PyVal.str "a")]) (PyVal.dict []) [] [] [("id", PyVal.bool true)]
        [] 1 (PKey.str "id") = Except.ok "" ∨
      ∃ sym attrR ai bR bn an ann2,
        processAttr (fun _ _ _ _ _ _ _ => Except.ok "")
            (PyVal.dict [("id", PyVal.str "a")]) (PyVal.dict []) [] []
            [("id", PyVal.bool true)] [] 1 (PKey.str "id")
          = Except.ok (leafOut (tabsOf 1) sym attrR ai bR "(Known After Apply)" bn an ann2) :=
  c6_known_after_apply (fun _ _ _ _ _ _ _ => Except.ok "") _ _ [] [] _ [] 1
    (PKey.str "id") (by decide) (by decide)

/-- C4: the change symbol of the leaf case is + exactly when before is
null and after is not, - exactly when before is not null and after is
null, and ~ otherwise; the key is omitted from the line when before is
null, after is not, and the key is a list index; and the creation scenario
before None, after a mapping with a: 1 produces the body line
"   + a = 1" followed by a newline. -/
theorem c4_leaf_symbols :
    (compare_values PyVal.null (PyVal.dict [("a", PyVal.int 1)]) [] [] [] []
      = Except.ok "   + a = 1\n") ∧
    (∀ bv av : PyVal,
      (symbolFor bv av = "+" ↔ (isNull bv = true ∧ isNull av = false)) ∧
      (symbolFor bv av = "-" ↔ (isNull bv = false ∧ isNull av = true)) ∧
      (isNull bv = isNull av → symbolFor bv av = "~")) ∧
    (∀ tabs sym attrR bR aR ann,
      leafOut tabs sym attrR true bR aR true false ann
        = tabs ++ sym ++ " " ++ aR ++ ann) := by
  refine ⟨by rfl, ?_, ?_⟩
  · intro bv av
    cases hb : isNull bv <;> cases ha : isNull av <;>
      simp [symbolFor, hb, ha]
  · intro tabs sym attrR bR aR ann
    simp [leafOut]

theorem c4_witness :
    symbolFor PyVal.null PyVal.null = "~" ∧
      compare_values PyVal.null (PyVal.dict [("a", PyVal.int 1)]) [] [] [] []
        = Except.ok "   + a = 1\n" :=
  ⟨(c4_leaf_symbols.2.1 PyVal.null PyVal.null).2.2 rfl, c4_leaf_symbols.1⟩

/-- Pointwise equal steps concatenate to equal results. -/
theorem concatAttrs_congr (s1 s2 : PKey → Except String String)
    (h : ∀ a, s1 a = s2 a) : ∀ l, concatAttrs s1 l = concatAttrs s2 l := by
  intro l
  induction l with
  | nil => rfl
  | cons a rest ih => simp [concatAttrs, h, ih]

/-- Away from the outermost level the forces-replacement flag is false and
the replace_paths argument cannot influence one attribute. -/
theorem processAttr_replace_paths_deep (recur : CmpFun) (before after : PyVal)
    (bSens aSens aUnk : List (String × PyVal)) (rp : List PyVal)
    (level : Nat) (attr : PKey) (h : level ≠ 1) :
    processAttr recur before after bSens aSens aUnk rp level attr
      = processAttr recur before after bSens aSens aUnk [] level attr := by
  have hb : (level == 1) = false := by simp [h]
  have hfr : forcesReplacement rp level attr = false := by
    unfold forcesReplacement
    simp [hb]
  have hfr2 : forcesReplacement [] level attr = false := by
    unfold forcesReplacement
    simp
  unfold processAttr
  rw [hfr, hfr2]

/-- C5: the forces-replacement flag of an attribute is true exactly when
the recursion depth is 1, the replacement path list is non-empty, and the
attribute is a member of it under Python ==; and at any depth other than 1
the whole comparator output is independent of the replace_paths argument
(the recursive calls of compare_values pass none on, so no nested
attribute is ever annotated). -/
theorem c5_forces_replacement_depth_one :
    (∀ (fuel : Nat) (before after : PyVal)
        (bSens aSens aUnk : List (String × PyVal)) (rp : List PyVal) (level : Nat),
      level ≠ 1 →
      compareValuesF fuel before after bSens aSens aUnk rp level
        = compareValuesF fuel before after bSens aSens aUnk [] level) ∧
    (∀ (rp : List PyVal) (level : Nat) (attr : PKey),
      forcesReplacement rp level attr = true ↔
        (rp ≠ [] ∧ level = 1 ∧ rp.any (fun p => pyEq (keyToVal attr) p) = true)) := by
  constructor
  · intro fuel before after bSens aSens aUnk rp level h
    cases fuel with
    | zero => rfl
    | succ fuel =>
      unfold compareValuesF
      cases hsa : sortedAttrs before after with
      | error e => rfl
      | ok attrs =>
        exact concatAttrs_congr _ _
          (fun a => processAttr_replace_paths_deep _ _ _ _ _ _ _ _ a h) attrs
  · intro rp level attr
    unfold forcesReplacement
    cases rp with
    | nil => simp
    | cons p ps =>
      simp [List.isEmpty, and_assoc]

/-- C5 witness data: a one-element replacement path. -/
theorem c5_witness :
    compareValuesF 3 (PyVal.dict [("x", PyVal.int 1)]) (PyVal.dict [("x", PyVal.int 2)])
        [] [] [] [PyVal.str "x"] 2
      = compareValuesF 3 (PyVal.dict [("x", PyVal.int 1)]) (PyVal.dict [("x", PyVal.int 2)])
          [] [] [] [] 2 ∧
      forcesReplacement [PyVal.str "x"] 1 (PKey.str "x") = true :=
  ⟨c5_forces_replacement_depth_one.1 3 _ _ [] [] [] [PyVal.str "x"] 2 (by decide),
   (c5_forces_replacement_depth_one.2 [PyVal.str "x"] 1 (PKey.str "x")).mpr
     ⟨by simp, rfl, by decide⟩⟩

/-- C9: the classifier skips a resource change whose action set holds
no-op (no block, and the whole invocation output is as if the record were
absent); a record reaching the read branch emits nothing; and a record
whose actions match no known combination aborts the whole invocation with
an error, whatever resource changes follow it. -/
theorem c9_action_classifier :
    (∀ rc : ResourceChange, "no-op" ∈ rc.actions →
      processResource rc = Except.ok "") ∧
    (∀ (rc : ResourceChange) (rest : List ResourceChange),
      "no-op" ∈ rc.actions →
      parse_changes (rc :: rest) = parse_changes rest) ∧
    (∀ rc : ResourceChange,
      "no-op" ∉ rc.actions → "create" ∉ rc.actions →
      "delete" ∉ rc.actions → "update" ∉ rc.actions →
      "read" ∈ rc.actions → processResource rc = Except.ok "") ∧
    (∀ (rc : ResourceChange) (rest : List ResourceChange),
      "no-op" ∉ rc.actions → "create" ∉ rc.actions →
      "delete" ∉ rc.actions → "update" ∉ rc.actions →
      "read" ∉ rc.actions →
      parse_changes (rc :: rest)
        = Except.error ("Failed to parse plan action on resource [" ++ rc.address ++ "]")) := by
  have hskip : ∀ rc : ResourceChange, "no-op" ∈ rc.actions →
      processResource rc = Except.ok "" := by
    intro rc h
    unfold processResource
    simp [h]
  have hbad : ∀ rc : ResourceChange,
      "no-op" ∉ rc.actions → "create" ∉ rc.actions →
      "delete" ∉ rc.actions → "update" ∉ rc.actions →
      "read" ∉ rc.actions →
      processResource rc
        = Except.error ("Failed to parse plan action on resource [" ++ rc.address ++ "]") := by
    intro rc h1 h2 h3 h4 h5
    unfold processResource
    simp [h1, h2, h3, h4, h5]
  refine ⟨hskip, ?_, ?_, ?_⟩
  · intro rc rest h
    have h1 := hskip rc h
    cases hc : concatResources rest with
    | error e => simp [parse_changes, concatResources, h1, hc]
    | ok r => simp [parse_changes, concatResources, h1, hc, strNilAppend]
  · intro rc h1 h2 h3 h4 h5
    unfold processResource
    simp [h1, h2, h3, h4, h5]
  · intro rc rest h1 h2 h3 h4 h5
    have he := hbad rc h1 h2 h3 h4 h5
    simp [parse_changes, concatResources, he]

def rcNoopW : ResourceChange :=
  ⟨"prov", "typ", "addr1", "nm", ["no-op"], PyVal.null, PyVal.null,
    Option.none, Option.none, Option.none, Option.none⟩

def rcReadW : ResourceChange :=
  ⟨"prov", "typ", "addr3", "nm", ["read"], PyVal.null, PyVal.null,
    Option.none, Option.none, Option.none, Option.none⟩

def rcBadW : ResourceChange :=
  ⟨"prov", "typ", "addr2", "nm", ["strange"], PyVal.null, PyVal.null,
    Option.none, Option.none, Option.none, Option.none⟩

theorem c9_witness :
    processResource rcNoopW = Except.ok "" ∧
      processResource rcReadW = Except.ok "" ∧
      parse_changes [rcBadW, rcNoopW]
        = Except.error "Failed to parse plan action on resource [addr2]" :=
  ⟨c9_action_classifier.1 rcNoopW (by decide),
   c9_action_classifier.2.2.1 rcReadW (by decide) (by decide) (by decide) (by decide)
     (by decide),
   c9_action_classifier.2.2.2 rcBadW [rcNoopW] (by decide) (by decide) (by decide)
     (by decide) (by decide)⟩

/-- C10: the sensitivity and unknown decisions at every depth consult the
original top-level maps by the segment key alone. A nested sub-map stored
under the parent key marks nothing (the child value renders literally even
though the sub-map says True for it), while a flat top-level entry for the
child key redacts the child at depth 2; and the replacement path set is
not propagated: a path naming the child annotates nothing in the nested
block. -/
theorem c10_metadata_maps_not_nested :
    (compare_values (PyVal.dict [("parent", PyVal.dict [("child", PyVal.str "x")])])
        (PyVal.dict [("parent", PyVal.dict [("child", PyVal.str "y")])])
        [("parent", PyVal.dict [("child", PyVal.bool true)])]
        [("parent", PyVal.dict [("child", PyVal.bool true)])] [] []
      = Except.ok "   parent = \x7b\n      ~ child = \"x\" -> \"y\"\n   \x7d\n") ∧
    (compare_values (PyVal.dict [("parent", PyVal.dict [("child", PyVal.str "x")])])
        (PyVal.dict [("parent", PyVal.dict [("child", PyVal.str "y")])])
        [("child", PyVal.bool true)] [("child", PyVal.bool true)] [] []
      = Except.ok
          "   parent = \x7b\n      ~ child = (Sensitive Data) -> (Sensitive Data)\n   \x7d\n") ∧
    (compare_values (PyVal.dict [("parent", PyVal.dict [("child", PyVal.str "x")])])
        (PyVal.dict [("parent", PyVal.dict [("child", PyVal.str "y")])])
        [] [] [] [PyVal.str "child"]
      = Except.ok "   parent = \x7b\n      ~ child = \"x\" -> \"y\"\n   \x7d\n") :=
  ⟨by rfl, by rfl, by rfl⟩
